import Mathlib

/-!
Shallow embedding of the push notification delivery engine of
`src/push_notifications.py` (class `PushNotificationService`).

Modelling conventions:
* The SQLite database is a pure `DB` value: one list per table, plus the
  `AUTOINCREMENT` counter of each table.
* ISO-8601 UTC timestamp strings compare lexicographically exactly as the
  instants they denote, so timestamps are embedded as `Int` seconds and the
  SQL string comparisons become `≤` on `Int`.
* Python `str.strip`, `str.lower` and slicing `[:n]` are embedded as the
  ASCII-faithful `pyStrip`, `pyLower`, `pyTake` below (all inputs the engine
  compares against are ASCII literals such as "standalone").
* The pluggable sender (`self._sender`, swapped by `set_sender_for_tests`)
  is embedded as a function from the number of previous sender invocations
  to an outcome: success, `PushPermanentError` (with its
  `deactivate_subscription` flag) or any other exception (the
  `except Exception` branch, which includes `PushTransientError`).
* Each SQL statement inside a method becomes pure list manipulation on `DB`;
  the worker thread itself is out of scope, `process_due_deliveries` is the
  embedded entry point, exactly as the tests of the repository drive it.
-/

/-- Python `str.strip()` whitespace test, restricted to the ASCII whitespace
characters (the engine only ever strips ids, endpoints and mode strings). -/
def pyIsSpace (c : Char) : Bool :=
  c = ' ' || c = '\t' || c = '\n' || c = '\r' || c = '\x0b' || c = '\x0c'

/-- Python `s.strip()`: drop whitespace from both ends. -/
def pyStrip (s : String) : String :=
  ⟨((s.data.dropWhile pyIsSpace).reverse.dropWhile pyIsSpace).reverse⟩

/-- ASCII lower-casing of one character, as Python `str.lower` acts on ASCII. -/
def pyLowerChar (c : Char) : Char :=
  if 65 ≤ c.toNat && c.toNat ≤ 90 then Char.ofNat (c.toNat + 32) else c

/-- Python `s.lower()` (ASCII fragment). -/
def pyLower (s : String) : String := ⟨s.data.map pyLowerChar⟩

/-- Python slicing `s[:n]` (by code points). -/
def pyTake (s : String) (n : Nat) : String := ⟨s.data.take n⟩

/-- Python `s or None` applied to a string: `None` when the string is empty. -/
def orNone (s : String) : Option String := if s = "" then none else some s

/-- The schedule `RETRY_BACKOFF_SECONDS = [15, 60, 300, 900, 3600, 21600, 86400]`
(src/push_notifications.py line 16). -/
def RETRY_BACKOFF_SECONDS : List Nat := [15, 60, 300, 900, 3600, 21600, 86400]

/-- One row of the `push_subscriptions` table. -/
structure Subscription where
  id : Nat
  endpoint : String
  p256dh : String
  auth : String
  device_id : Option String
  user_id : Option String
  client_mode : String
  status : String
  last_seen_at : Int
  created_at : Int
  updated_at : Int
deriving Repr, DecidableEq

/-- One row of the `push_events` table. -/
structure PushEvent where
  id : Nat
  event_type : String
  restaurant_id : String
  go_time : String
  publisher_user_id : Option String
  created_at : Int
deriving Repr, DecidableEq

/-- One row of the `push_delivery_queue` table. -/
structure QueueRow where
  id : Nat
  event_id : Nat
  subscription_id : Nat
  status : String
  attempt_count : Nat
  next_attempt_at : Int
  last_error : Option String
  delivered_at : Option Int
  created_at : Int
  updated_at : Int
deriving Repr, DecidableEq

/-- The SQLite database of the engine: the three tables created by `init_db`,
with the `AUTOINCREMENT` counter of each table made explicit. -/
structure DB where
  subs : List Subscription
  events : List PushEvent
  queue : List QueueRow
  next_sub_id : Nat
  next_event_id : Nat
  next_queue_id : Nat
deriving Repr, DecidableEq

/-- Return value of `create_slot_published_event` (`SlotPublishEnqueueResult`). -/
structure SlotPublishEnqueueResult where
  event_id : Option Nat
  targeted : Nat
deriving Repr, DecidableEq

/-- The summary dict returned by `process_due_deliveries`. -/
structure DeliveryStats where
  sent : Nat
  retried : Nat
  failed_permanent : Nat
deriving Repr, DecidableEq

/-- Outcome of one sender invocation: normal return, `PushPermanentError`
(with its `deactivate_subscription` flag), or any other exception. -/
inductive SendOutcome where
  | success
  | permanentError (msg : String) (deactivate_subscription : Bool)
  | otherError (msg : String)
deriving Repr, DecidableEq

/-- The `keys` sub-dict of a browser push-subscription payload. -/
structure SubscriptionKeys where
  p256dh : Option String
  auth : Option String
deriving Repr, DecidableEq

/-- A browser push-subscription payload as the web layer hands it over
(`subscription: dict[str, Any]`); `keys = none` embeds a payload whose
`keys` entry is absent or not a dict. -/
structure SubscriptionPayload where
  endpoint : Option String
  keys : Option SubscriptionKeys
deriving Repr, DecidableEq

/-- Embeds `PushNotificationService._extract_subscription_parts`. -/
def extract_subscription_parts (subscription : SubscriptionPayload) :
    Except String (String × String × String) :=
  let endpoint := pyStrip (subscription.endpoint.getD "")
  match subscription.keys with
  | none => .error "invalid_subscription"
  | some keys =>
    let p256dh := pyStrip (keys.p256dh.getD "")
    let auth := pyStrip (keys.auth.getD "")
    if endpoint = "" || p256dh = "" || auth = "" then .error "invalid_subscription"
    else .ok (endpoint, p256dh, auth)

/-- The `ON CONFLICT(endpoint) DO UPDATE SET ...` clause of the upsert in
`register_subscription`, applied to one stored row. -/
def upsert_row (endpoint p256dh auth device_id_norm : String)
    (user_norm : Option String) (client_mode_norm : String) (now : Int)
    (s : Subscription) : Subscription :=
  if s.endpoint = endpoint then
    { s with
      p256dh := p256dh,
      auth := auth,
      device_id := some device_id_norm,
      user_id := user_norm,
      client_mode := client_mode_norm,
      status := "active",
      last_seen_at := now,
      updated_at := now }
  else s

/-- Embeds `PushNotificationService.register_subscription`: validation, then the
`INSERT ... ON CONFLICT(endpoint) DO UPDATE` upsert, then the `SELECT id`
by endpoint whose row id is returned. -/
def register_subscription (db : DB) (subscription : SubscriptionPayload)
    (device_id : String) (user_id : Option String) (client_mode : String)
    (now : Int) : Except String (DB × Nat) :=
  match extract_subscription_parts subscription with
  | .error e => .error e
  | .ok (endpoint, p256dh, auth) =>
    let device_id_norm := pyStrip device_id
    if device_id_norm = "" then .error "invalid_device_id"
    else
      let client_mode_norm := pyLower (pyStrip client_mode)
      if client_mode_norm ≠ "standalone" then .error "invalid_client_mode"
      else
        let user_norm := orNone (pyLower (pyStrip (user_id.getD "")))
        let db1 : DB :=
          if db.subs.any (fun s => s.endpoint = endpoint) then
            { db with
              subs := db.subs.map (upsert_row endpoint p256dh auth
                device_id_norm user_norm client_mode_norm now) }
          else
            { db with
              subs := db.subs ++ [{
                id := db.next_sub_id,
                endpoint := endpoint,
                p256dh := p256dh,
                auth := auth,
                device_id := some device_id_norm,
                user_id := user_norm,
                client_mode := client_mode_norm,
                status := "active",
                last_seen_at := now,
                created_at := now,
                updated_at := now }],
              next_sub_id := db.next_sub_id + 1 }
        match db1.subs.find? (fun s => s.endpoint = endpoint) with
        | some row => .ok (db1, row.id)
        | none => .error "push_subscription_upsert_failed"

/-- The `WHERE` clause of the fan-out `SELECT` in `create_slot_published_event`:
active, accepted client mode, and the two optional exclusion clauses that the
code appends when `publisher_norm` / `exclude_device_id_norm` are non-empty. -/
def eligible_subscription (publisher_norm : String)
    (exclude_device_id_norm : Option String) (s : Subscription) : Bool :=
  s.status = "active" && s.client_mode = "standalone"
  && (publisher_norm = "" ||
      (match s.user_id with
       | none => true
       | some u => pyLower u ≠ publisher_norm))
  && (match exclude_device_id_norm with
      | none => true
      | some ex =>
        match s.device_id with
        | none => true
        | some d => d ≠ ex)

/-- One `INSERT OR IGNORE INTO push_delivery_queue` statement: returns the new
queue, the new autoincrement counter, and the `rowcount` of the statement
(0 or 1). -/
def enqueue_delivery (queue : List QueueRow) (next_id : Nat)
    (event_id sub_id : Nat) (now : Int) : List QueueRow × Nat × Nat :=
  if queue.any (fun q => q.event_id = event_id && q.subscription_id = sub_id) then
    (queue, next_id, 0)
  else
    (queue ++ [{
      id := next_id,
      event_id := event_id,
      subscription_id := sub_id,
      status := "pending",
      attempt_count := 0,
      next_attempt_at := now,
      last_error := none,
      delivered_at := none,
      created_at := now,
      updated_at := now }], next_id + 1, 1)

/-- The fan-out loop of `create_slot_published_event`: one
`INSERT OR IGNORE` per selected subscription id, summing the rowcounts
into `targeted`. -/
def fanout_insert (queue : List QueueRow) (next_id : Nat) (event_id : Nat)
    (sub_ids : List Nat) (now : Int) : List QueueRow × Nat × Nat :=
  match sub_ids with
  | [] => (queue, next_id, 0)
  | i :: rest =>
    let step := enqueue_delivery queue next_id event_id i now
    let further := fanout_insert step.1 step.2.1 event_id rest now
    (further.1, further.2.1, step.2.2 + further.2.2)

/-- Embeds `PushNotificationService.create_slot_published_event`. -/
def create_slot_published_event (enabled : Bool) (db : DB)
    (restaurant_id go_time publisher_user_id : String)
    (exclude_device_id : Option String) (now : Int) :
    DB × SlotPublishEnqueueResult :=
  if !enabled then (db, { event_id := none, targeted := 0 })
  else
    let publisher_norm := pyLower (pyStrip publisher_user_id)
    let exclude_device_id_norm := orNone (pyStrip (exclude_device_id.getD ""))
    let event_id := db.next_event_id
    let ev : PushEvent := {
      id := event_id,
      event_type := "slot_published",
      restaurant_id := restaurant_id,
      go_time := go_time,
      publisher_user_id := orNone publisher_norm,
      created_at := now }
    let sub_ids := (db.subs.filter
      (eligible_subscription publisher_norm exclude_device_id_norm)).map
      (fun s => s.id)
    let inserted := fanout_insert db.queue db.next_queue_id event_id sub_ids now
    ({ db with
       events := db.events ++ [ev],
       queue := inserted.1,
       next_event_id := event_id + 1,
       next_queue_id := inserted.2.1 },
     { event_id := some event_id, targeted := inserted.2.2 })

/-- The `WHERE` clause of the due-rows `SELECT` in `process_due_deliveries`:
status in {pending, retry}, next attempt not in the future, and the two
`INNER JOIN`s requiring an active owning subscription and an existing event. -/
def is_due (db : DB) (now : Int) (q : QueueRow) : Bool :=
  (q.status = "pending" || q.status = "retry")
  && q.next_attempt_at ≤ now
  && db.subs.any (fun s => s.id = q.subscription_id && s.status = "active")
  && db.events.any (fun e => e.id = q.event_id)

/-- The key `ORDER BY q.next_attempt_at ASC, q.id ASC` as a boolean total
order. -/
def due_le (a b : QueueRow) : Bool :=
  a.next_attempt_at < b.next_attempt_at
  || (a.next_attempt_at = b.next_attempt_at && a.id ≤ b.id)

/-- The snapshot `SELECT` of `process_due_deliveries`: due rows, ordered by
next-attempt time then id (the sort is an insertion sort; since the key
(next_attempt_at, id) is totally ordered and row ids are unique, this is the
unique `ORDER BY` result), limited to `max(int(limit), 1)` rows. -/
def due_rows (db : DB) (now : Int) (limit : Int) : List QueueRow :=
  (((db.queue.filter (is_due db now)).insertionSort
    (fun a b => due_le a b = true)).take (max limit 1).toNat)

/-- Embeds `PushNotificationService._mark_delivered`. -/
def mark_delivered (db : DB) (queue_id attempt_count : Nat) (now : Int) : DB :=
  { db with queue := db.queue.map (fun q =>
      if q.id = queue_id then
        { q with
          status := "delivered",
          attempt_count := attempt_count + 1,
          delivered_at := some now,
          updated_at := now,
          last_error := none }
      else q) }

/-- Embeds `PushNotificationService._mark_permanent_failure`: the queue-row update
and, when `deactivate_subscription` holds, the subscription update, committed
together. -/
def mark_permanent_failure (db : DB) (queue_id subscription_id attempt_count : Nat)
    (now : Int) (error : String) (deactivate_subscription : Bool) : DB :=
  let db1 := { db with queue := db.queue.map (fun q =>
      if q.id = queue_id then
        { q with
          status := "failed_permanent",
          attempt_count := attempt_count + 1,
          updated_at := now,
          last_error := some (pyTake error 500) }
      else q) }
  if deactivate_subscription then
    { db1 with subs := db1.subs.map (fun s =>
        if s.id = subscription_id then
          { s with status := "inactive", updated_at := now }
        else s) }
  else db1

/-- Embeds `PushNotificationService._mark_retry`: `False` (no write) once the attempt
index is past the backoff schedule, else the retry update with the scheduled
delay. -/
def mark_retry (db : DB) (queue_id attempt_count : Nat) (now : Int)
    (error : String) : DB × Bool :=
  let next_attempt_index := attempt_count
  if RETRY_BACKOFF_SECONDS.length ≤ next_attempt_index then (db, false)
  else
    let delay_seconds := RETRY_BACKOFF_SECONDS.getD next_attempt_index 0
    let next_attempt_at := now + (delay_seconds : Int)
    ({ db with queue := db.queue.map (fun q =>
        if q.id = queue_id then
          { q with
            status := "retry",
            attempt_count := attempt_count + 1,
            next_attempt_at := next_attempt_at,
            updated_at := now,
            last_error := some (pyTake error 500) }
        else q) }, true)

/-- The body of the per-row loop of `process_due_deliveries`; the `Nat`
component threads the number of sender invocations made so far. -/
def process_one (sender : Nat → SendOutcome) (now : Int)
    (acc : DB × DeliveryStats × Nat) (row : QueueRow) : DB × DeliveryStats × Nat :=
  let db := acc.1
  let stats := acc.2.1
  let calls := acc.2.2
  match sender calls with
  | .success =>
    (mark_delivered db row.id row.attempt_count now,
     { stats with sent := stats.sent + 1 }, calls + 1)
  | .permanentError msg deact =>
    (mark_permanent_failure db row.id row.subscription_id row.attempt_count
       now msg deact,
     { stats with failed_permanent := stats.failed_permanent + 1 }, calls + 1)
  | .otherError msg =>
    let attempt := mark_retry db row.id row.attempt_count now msg
    if attempt.2 then
      (attempt.1, { stats with retried := stats.retried + 1 }, calls + 1)
    else
      (mark_permanent_failure db row.id row.subscription_id row.attempt_count
         now msg false,
       { stats with failed_permanent := stats.failed_permanent + 1 }, calls + 1)

/-- Embeds `PushNotificationService.process_due_deliveries`: the disabled-engine
no-op, else the due-rows snapshot followed by the per-row loop. -/
def process_due_deliveries (enabled : Bool) (db : DB)
    (sender : Nat → SendOutcome) (limit : Int) (now : Int) (calls : Nat) :
    DB × DeliveryStats × Nat :=
  if !enabled then (db, { sent := 0, retried := 0, failed_permanent := 0 }, calls)
  else
    (due_rows db now limit).foldl (process_one sender now)
      (db, { sent := 0, retried := 0, failed_permanent := 0 }, calls)


/-- The rows appended by one run of the fan-out loop when none of the targeted
(event, subscription) pairs is present yet: one fresh pending row per selected
subscription id, with consecutive autoincrement ids. -/
def fresh_rows (next_id event_id : Nat) (sub_ids : List Nat) (now : Int) :
    List QueueRow :=
  match sub_ids with
  | [] => []
  | i :: rest =>
    {
      id := next_id,
      event_id := event_id,
      subscription_id := i,
      status := "pending",
      attempt_count := 0,
      next_attempt_at := now,
      last_error := none,
      delivered_at := none,
      created_at := now,
      updated_at := now } :: fresh_rows (next_id + 1) event_id rest now

/-- Concrete subscription used by the scenario witnesses (mirrors the
fixture of `src/tests/test_push_worker_retry.py`). -/
def wSub : Subscription := {
  id := 1,
  endpoint := "https://push.example/one",
  p256dh := "test-p256dh",
  auth := "test-auth",
  device_id := some "device-one",
  user_id := some "bob",
  client_mode := "standalone",
  status := "active",
  last_seen_at := 0,
  created_at := 0,
  updated_at := 0 }

/-- Concrete event used by the scenario witnesses. -/
def wEvent : PushEvent := {
  id := 1,
  event_type := "slot_published",
  restaurant_id := "test-restaurant",
  go_time := "12:00",
  publisher_user_id := some "alice",
  created_at := 0 }

/-- Concrete fresh queue row used by the scenario witnesses. -/
def wRow : QueueRow := {
  id := 1,
  event_id := 1,
  subscription_id := 1,
  status := "pending",
  attempt_count := 0,
  next_attempt_at := 0,
  last_error := none,
  delivered_at := none,
  created_at := 0,
  updated_at := 0 }

/-- Subscription `wSub2` of the fan-out witnesses: owned by user alice, so it
is excluded when alice publishes. -/
def wSub2 : Subscription := {
  id := 2,
  endpoint := "https://push.example/two",
  p256dh := "test-p256dh",
  auth := "test-auth",
  device_id := some "device-two",
  user_id := some "alice",
  client_mode := "standalone",
  status := "active",
  last_seen_at := 0,
  created_at := 0,
  updated_at := 0 }

/-- Database of the fan-out witnesses: the subscriptions of bob and alice,
no events, empty queue. -/
def wDB : DB := {
  subs := [wSub, wSub2],
  events := [],
  queue := [],
  next_sub_id := 3,
  next_event_id := 1,
  next_queue_id := 1 }

/-- An invalid registration payload: empty `p256dh` key. -/
def wPayloadBad : SubscriptionPayload := {
  endpoint := some "https://push.example/pad",
  keys := some { p256dh := some "", auth := some "a" } }

/-- A valid registration payload. -/
def wPayloadGood : SubscriptionPayload := {
  endpoint := some "https://push.example/new",
  keys := some { p256dh := some "k", auth := some "a" } }

/-- The concrete store after registering `wPayloadGood` against `wDB`. -/
def wDBAfter : DB := {
  subs := [wSub, wSub2, {
    id := 3,
    endpoint := "https://push.example/new",
    p256dh := "k",
    auth := "a",
    device_id := some "deva",
    user_id := none,
    client_mode := "standalone",
    status := "active",
    last_seen_at := 5,
    created_at := 5,
    updated_at := 5 }],
  events := [],
  queue := [],
  next_sub_id := 4,
  next_event_id := 1,
  next_queue_id := 1 }

/-! ### Generic lemmas about the embedded operations -/

/-- A queue row satisfying all four conditions of the due-rows `WHERE`
clause is selected by `is_due`. -/
theorem is_due_of_conditions (db : DB) (now : Int) (q : QueueRow)
    (hq : q.status = "pending" ∨ q.status = "retry")
    (ht : q.next_attempt_at ≤ now)
    (hsub : ∃ s ∈ db.subs, s.id = q.subscription_id ∧ s.status = "active")
    (hev : ∃ e ∈ db.events, e.id = q.event_id) :
    is_due db now q = true := by
  obtain ⟨s, hsm, hsid, hsst⟩ := hsub
  obtain ⟨e, hem, heid⟩ := hev
  simp only [is_due, Bool.and_eq_true, Bool.or_eq_true, decide_eq_true_eq,
    List.any_eq_true]
  exact ⟨⟨⟨hq, ht⟩, s, hsm, by simp [hsid, hsst]⟩, e, hem, by simp [heid]⟩

/-- In a database holding exactly one queue row, one matching active
subscription and the matching event, the due-rows snapshot is that single
row (for any limit, since the code clamps the limit to at least one). -/
theorem due_rows_singleton (s : Subscription) (e : PushEvent) (q : QueueRow)
    (ns ne nq : Nat) (now limit : Int)
    (hq : q.status = "pending" ∨ q.status = "retry")
    (ht : q.next_attempt_at ≤ now)
    (hs : s.id = q.subscription_id) (hst : s.status = "active")
    (he : e.id = q.event_id) :
    due_rows ⟨[s], [e], [q], ns, ne, nq⟩ now limit = [q] := by
  have hdue : is_due ⟨[s], [e], [q], ns, ne, nq⟩ now q = true :=
    is_due_of_conditions _ now q hq ht ⟨s, by simp, hs, hst⟩ ⟨e, by simp, he⟩
  simp only [due_rows, List.filter, hdue, List.insertionSort,
    List.orderedInsert]
  apply List.take_of_length_le
  simp

/-- Calling `process_due_deliveries` on an enabled engine is the per-row loop folded
over the due-rows snapshot. -/
theorem process_due_deliveries_enabled (db : DB) (sender : Nat → SendOutcome)
    (limit now : Int) (calls : Nat) :
    process_due_deliveries true db sender limit now calls
      = (due_rows db now limit).foldl (process_one sender now)
          (db, { sent := 0, retried := 0, failed_permanent := 0 }, calls) := rfl

/-! ### C7 -/

/-- C7: with the engine disabled, `create_slot_published_event` returns a
null event id and zero targeted count leaving the database untouched, and
`process_due_deliveries` returns all-zero summary counts leaving the
database untouched; both are total functions, so neither raises. -/
theorem C7_disabled_engine_is_noop (db : DB) (sender : Nat → SendOutcome)
    (restaurant_id go_time publisher_user_id : String)
    (exclude_device_id : Option String) (limit now : Int) (calls : Nat) :
    create_slot_published_event false db restaurant_id go_time
        publisher_user_id exclude_device_id now
      = (db, { event_id := none, targeted := 0 })
    ∧ process_due_deliveries false db sender limit now calls
      = (db, { sent := 0, retried := 0, failed_permanent := 0 }, calls) :=
  ⟨rfl, rfl⟩

/-! ### C2 -/

/-- C2: when the sender raises a permanent error, the queued row moves to
`failed_permanent` with the attempt count incremented and the error text
recorded, and the owning subscription is flipped to `inactive` exactly when
the error carries the gone signal (`deactivate_subscription`); without the
gone signal the subscription row is left untouched, hence still active.
Both updates appear together in the single resulting state. -/
theorem C2_permanent_gone_deactivates (s : Subscription) (e : PushEvent)
    (q : QueueRow) (ns ne nq : Nat) (msg : String) (deact : Bool)
    (limit now : Int) (calls : Nat)
    (hq : q.status = "pending" ∨ q.status = "retry")
    (ht : q.next_attempt_at ≤ now)
    (hs : s.id = q.subscription_id) (hst : s.status = "active")
    (he : e.id = q.event_id) :
    process_due_deliveries true ⟨[s], [e], [q], ns, ne, nq⟩
        (fun _ => SendOutcome.permanentError msg deact) limit now calls
      = (⟨[if deact then { s with status := "inactive", updated_at := now }
            else s],
          [e],
          [{ q with
             status := "failed_permanent",
             attempt_count := q.attempt_count + 1,
             updated_at := now,
             last_error := some (pyTake msg 500) }],
          ns, ne, nq⟩,
         { sent := 0, retried := 0, failed_permanent := 1 }, calls + 1) := by
  rw [process_due_deliveries_enabled,
    due_rows_singleton s e q ns ne nq now limit hq ht hs hst he]
  simp only [List.foldl, process_one, mark_permanent_failure]
  cases deact <;> simp [hs]

/-- Witness for C2 at a concrete gone-signalling permanent failure. -/
theorem C2_permanent_gone_deactivates_witness :
    process_due_deliveries true ⟨[wSub], [wEvent], [wRow], 2, 2, 2⟩
        (fun _ => SendOutcome.permanentError "gone" true) 50 100 0
      = (⟨[{ wSub with
             status := "inactive",
             updated_at := 100 }],
          [wEvent],
          [{ wRow with
             status := "failed_permanent",
             attempt_count := 1,
             updated_at := 100,
             last_error := some (pyTake "gone" 500) }],
          2, 2, 2⟩,
         { sent := 0, retried := 0, failed_permanent := 1 }, 1) :=
  C2_permanent_gone_deactivates wSub wEvent wRow 2 2 2 "gone" true 50 100 0
    (Or.inl rfl) (by decide) rfl rfl rfl

/-! ### C3 -/

/-- C3: for a single queued delivery and a sender that raises a transient
error on its first invocation and succeeds on the second, processing once at
`now1` (when the row is due) and once at `now2` after the first backoff delay
of 15 seconds has elapsed leaves the row `delivered` with attempt count 2, a
non-null delivered timestamp and a cleared error; the summary of the first
call counts it as retried (not sent), that of the second call as sent. -/
theorem C3_retry_then_succeed (s : Subscription) (e : PushEvent) (q : QueueRow)
    (ns ne nq : Nat) (msg : String) (limit1 limit2 now1 now2 : Int)
    (hq : q.status = "pending") (ha : q.attempt_count = 0)
    (ht : q.next_attempt_at ≤ now1) (h12 : now1 + 15 ≤ now2)
    (hs : s.id = q.subscription_id) (hst : s.status = "active")
    (he : e.id = q.event_id) :
    process_due_deliveries true ⟨[s], [e], [q], ns, ne, nq⟩
        (fun n => if n = 0 then SendOutcome.otherError msg else .success)
        limit1 now1 0
      = (⟨[s], [e],
          [{ q with
             status := "retry",
             attempt_count := 1,
             next_attempt_at := now1 + 15,
             updated_at := now1,
             last_error := some (pyTake msg 500) }],
          ns, ne, nq⟩,
         { sent := 0, retried := 1, failed_permanent := 0 }, 1)
    ∧ process_due_deliveries true
        ⟨[s], [e],
         [{ q with
            status := "retry",
            attempt_count := 1,
            next_attempt_at := now1 + 15,
            updated_at := now1,
            last_error := some (pyTake msg 500) }],
         ns, ne, nq⟩
        (fun n => if n = 0 then SendOutcome.otherError msg else .success)
        limit2 now2 1
      = (⟨[s], [e],
          [{ q with
             status := "delivered",
             attempt_count := 2,
             next_attempt_at := now1 + 15,
             delivered_at := some now2,
             updated_at := now2,
             last_error := none }],
          ns, ne, nq⟩,
         { sent := 1, retried := 0, failed_permanent := 0 }, 2) := by
  constructor
  · rw [process_due_deliveries_enabled,
      due_rows_singleton s e q ns ne nq now1 limit1 (Or.inl hq) ht hs hst he]
    simp [List.foldl, process_one, mark_retry, RETRY_BACKOFF_SECONDS, ha]
  · have h2 : due_rows
        ⟨[s], [e],
         [{ q with
            status := "retry",
            attempt_count := 1,
            next_attempt_at := now1 + 15,
            updated_at := now1,
            last_error := some (pyTake msg 500) }],
         ns, ne, nq⟩ now2 limit2
        = [{ q with
             status := "retry",
             attempt_count := 1,
             next_attempt_at := now1 + 15,
             updated_at := now1,
             last_error := some (pyTake msg 500) }] :=
      due_rows_singleton s e
        { q with
          status := "retry",
          attempt_count := 1,
          next_attempt_at := now1 + 15,
          updated_at := now1,
          last_error := some (pyTake msg 500) }
        ns ne nq now2 limit2 (Or.inr rfl) h12 hs hst he
    rw [process_due_deliveries_enabled, h2]
    simp [List.foldl, process_one, mark_delivered]

/-- Witness for C3 at the concrete fixture, times 1 and 17. -/
theorem C3_retry_then_succeed_witness :
    process_due_deliveries true ⟨[wSub], [wEvent], [wRow], 2, 2, 2⟩
        (fun n => if n = 0 then SendOutcome.otherError "temporary outage" else .success)
        50 1 0
      = (⟨[wSub], [wEvent],
          [{ wRow with
             status := "retry",
             attempt_count := 1,
             next_attempt_at := 16,
             updated_at := 1,
             last_error := some (pyTake "temporary outage" 500) }],
          2, 2, 2⟩,
         { sent := 0, retried := 1, failed_permanent := 0 }, 1)
    ∧ process_due_deliveries true
        ⟨[wSub], [wEvent],
         [{ wRow with
            status := "retry",
            attempt_count := 1,
            next_attempt_at := 16,
            updated_at := 1,
            last_error := some (pyTake "temporary outage" 500) }],
         2, 2, 2⟩
        (fun n => if n = 0 then SendOutcome.otherError "temporary outage" else .success)
        50 17 1
      = (⟨[wSub], [wEvent],
          [{ wRow with
             status := "delivered",
             attempt_count := 2,
             next_attempt_at := 16,
             delivered_at := some 17,
             updated_at := 17,
             last_error := none }],
          2, 2, 2⟩,
         { sent := 1, retried := 0, failed_permanent := 0 }, 2) :=
  C3_retry_then_succeed wSub wEvent wRow 2 2 2 "temporary outage" 50 50 1 17
    rfl rfl (by decide) (by decide) rfl rfl rfl

/-! ### C4 -/

/-- C4: on a transient failure, while the attempt count is still within the
7-entry backoff schedule the row moves to `retry` with the attempt count
incremented and next attempt = now + the schedule delay indexed by the
attempt number; once the attempt index is beyond the schedule length the row
instead moves to `failed_permanent` while the owning subscription row is left
untouched (still active); and the schedule is exactly
[15s, 1m, 5m, 15m, 1h, 6h, 1d]. -/
theorem C4_backoff_schedule_and_exhaustion (s : Subscription) (e : PushEvent)
    (q : QueueRow) (ns ne nq : Nat) (msg : String) (limit now : Int)
    (calls : Nat)
    (hq : q.status = "pending" ∨ q.status = "retry")
    (ht : q.next_attempt_at ≤ now)
    (hs : s.id = q.subscription_id) (hst : s.status = "active")
    (he : e.id = q.event_id) :
    RETRY_BACKOFF_SECONDS = [15, 60, 300, 900, 3600, 21600, 86400]
    ∧ (q.attempt_count < RETRY_BACKOFF_SECONDS.length →
        process_due_deliveries true ⟨[s], [e], [q], ns, ne, nq⟩
            (fun _ => SendOutcome.otherError msg) limit now calls
          = (⟨[s], [e],
              [{ q with
                 status := "retry",
                 attempt_count := q.attempt_count + 1,
                 next_attempt_at :=
                   now + (RETRY_BACKOFF_SECONDS.getD q.attempt_count 0 : Int),
                 updated_at := now,
                 last_error := some (pyTake msg 500) }],
              ns, ne, nq⟩,
             { sent := 0, retried := 1, failed_permanent := 0 }, calls + 1))
    ∧ (RETRY_BACKOFF_SECONDS.length ≤ q.attempt_count →
        process_due_deliveries true ⟨[s], [e], [q], ns, ne, nq⟩
            (fun _ => SendOutcome.otherError msg) limit now calls
          = (⟨[s], [e],
              [{ q with
                 status := "failed_permanent",
                 attempt_count := q.attempt_count + 1,
                 updated_at := now,
                 last_error := some (pyTake msg 500) }],
              ns, ne, nq⟩,
             { sent := 0, retried := 0, failed_permanent := 1 }, calls + 1)) := by
  refine ⟨rfl, ?_, ?_⟩ <;> intro hcount <;>
    rw [process_due_deliveries_enabled,
      due_rows_singleton s e q ns ne nq now limit hq ht hs hst he] <;>
    simp [List.foldl, process_one, mark_retry, mark_permanent_failure,
      Nat.not_le.mpr, hcount, Nat.not_le_of_lt]

/-- Witness for C4 at the concrete fixture (attempt 0, delay 15s branch). -/
theorem C4_backoff_schedule_and_exhaustion_witness :
    process_due_deliveries true ⟨[wSub], [wEvent], [wRow], 2, 2, 2⟩
        (fun _ => SendOutcome.otherError "boom") 50 100 0
      = (⟨[wSub], [wEvent],
          [{ wRow with
             status := "retry",
             attempt_count := 1,
             next_attempt_at := 115,
             updated_at := 100,
             last_error := some (pyTake "boom" 500) }],
          2, 2, 2⟩,
         { sent := 0, retried := 1, failed_permanent := 0 }, 1) :=
  (C4_backoff_schedule_and_exhaustion wSub wEvent wRow 2 2 2 "boom" 50 100 0
    (Or.inl rfl) (by decide) rfl rfl rfl).2.1 (by decide)

/-! ### Fan-out lemmas -/

/-- Every row produced by `fresh_rows` is a fresh pending row of the event. -/
theorem fresh_rows_mem (event_id : Nat) (now : Int) (sub_ids : List Nat) :
    ∀ (next_id : Nat) (q : QueueRow),
      q ∈ fresh_rows next_id event_id sub_ids now →
      q.event_id = event_id ∧ q.status = "pending" ∧ q.attempt_count = 0
        ∧ q.next_attempt_at = now ∧ q.last_error = none
        ∧ q.delivered_at = none := by
  induction sub_ids with
  | nil => intro next_id q hmem; simp [fresh_rows] at hmem
  | cons i rest ih =>
    intro next_id q hmem
    rcases (List.mem_cons).1 hmem with h | h
    · subst h; exact ⟨rfl, rfl, rfl, rfl, rfl, rfl⟩
    · exact ih (next_id + 1) q h

/-- The subscription ids and statuses carried by `fresh_rows`. -/
theorem fresh_rows_map_sub_status (event_id : Nat) (now : Int)
    (sub_ids : List Nat) :
    ∀ next_id : Nat,
      (fresh_rows next_id event_id sub_ids now).map
          (fun q => (q.subscription_id, q.status))
        = sub_ids.map (fun i => (i, "pending")) := by
  induction sub_ids with
  | nil => intro next_id; simp [fresh_rows]
  | cons i rest ih => intro next_id; simp [fresh_rows, ih (next_id + 1)]

/-- The (event, subscription) pairs carried by `fresh_rows`. -/
theorem fresh_rows_map_pairs (event_id : Nat) (now : Int) (sub_ids : List Nat) :
    ∀ next_id : Nat,
      (fresh_rows next_id event_id sub_ids now).map
          (fun q => (q.event_id, q.subscription_id))
        = sub_ids.map (fun i => (event_id, i)) := by
  induction sub_ids with
  | nil => intro next_id; simp [fresh_rows]
  | cons i rest ih => intro next_id; simp [fresh_rows, ih (next_id + 1)]

/-- When no targeted pair is present yet and the targeted ids are distinct,
the fan-out loop appends exactly one fresh pending row per id and reports
one newly inserted row per id. -/
theorem fanout_insert_fresh (event_id : Nat) (now : Int) (sub_ids : List Nat) :
    ∀ (queue : List QueueRow) (next_id : Nat),
      sub_ids.Nodup →
      (∀ q ∈ queue, q.event_id = event_id → q.subscription_id ∉ sub_ids) →
      fanout_insert queue next_id event_id sub_ids now
        = (queue ++ fresh_rows next_id event_id sub_ids now,
           next_id + sub_ids.length, sub_ids.length) := by
  induction sub_ids with
  | nil => intro queue next_id _ _; simp [fanout_insert, fresh_rows]
  | cons i rest ih =>
    intro queue next_id hnodup hnew
    have hnotmem :
        (queue.any fun q => q.event_id = event_id && q.subscription_id = i)
          = false := by
      rw [List.any_eq_false]
      intro q hq
      simp only [Bool.and_eq_true, decide_eq_true_eq, not_and]
      intro hev hsub
      exact hnew q hq hev (by simp [hsub])
    have hnew2 : ∀ q ∈ queue ++ [{
        id := next_id,
        event_id := event_id,
        subscription_id := i,
        status := "pending",
        attempt_count := 0,
        next_attempt_at := now,
        last_error := none,
        delivered_at := none,
        created_at := now,
        updated_at := now : QueueRow }],
        q.event_id = event_id → q.subscription_id ∉ rest := by
      intro q hq hev
      rcases (List.mem_append).1 hq with h | h
      · intro hmem
        exact hnew q h hev (List.mem_cons_of_mem _ hmem)
      · rcases List.mem_singleton.1 h with rfl
        exact (List.nodup_cons.1 hnodup).1
    simp only [fanout_insert, enqueue_delivery, hnotmem, Bool.false_eq_true,
      if_false]
    rw [ih _ (next_id + 1) (List.nodup_cons.1 hnodup).2 hnew2]
    simp [fresh_rows]
    omega

/-- When every targeted pair is already present, the fan-out loop inserts
nothing and reports zero newly inserted rows. -/
theorem fanout_insert_idem (event_id : Nat) (now : Int) (sub_ids : List Nat) :
    ∀ (queue : List QueueRow) (next_id : Nat),
      (∀ i ∈ sub_ids,
        ∃ q ∈ queue, q.event_id = event_id ∧ q.subscription_id = i) →
      fanout_insert queue next_id event_id sub_ids now = (queue, next_id, 0) := by
  induction sub_ids with
  | nil => intro queue next_id _; simp [fanout_insert]
  | cons i rest ih =>
    intro queue next_id hall
    have hmem :
        (queue.any fun q => q.event_id = event_id && q.subscription_id = i)
          = true := by
      rw [List.any_eq_true]
      obtain ⟨q, hq, h1, h2⟩ := hall i (by simp)
      exact ⟨q, hq, by simp [h1, h2]⟩
    simp only [fanout_insert, enqueue_delivery, hmem, if_true]
    rw [ih queue next_id (fun j hj => hall j (List.mem_cons_of_mem _ hj))]
    rfl

/-- Running `create_slot_published_event` on an enabled engine, spelled out: the new
event row is appended and the fan-out appends one fresh pending queue row per
eligible subscription (given the autoincrement invariant that no queue row
references an event id at or past the counter, and distinct subscription
ids). -/
theorem create_event_enabled_eq (db : DB)
    (restaurant_id go_time publisher_user_id : String)
    (exclude_device_id : Option String) (now : Int)
    (hNodup : (db.subs.map Subscription.id).Nodup)
    (hFresh : ∀ q ∈ db.queue, q.event_id < db.next_event_id) :
    create_slot_published_event true db restaurant_id go_time
        publisher_user_id exclude_device_id now
      = ({ db with
           events := db.events ++ [{
             id := db.next_event_id,
             event_type := "slot_published",
             restaurant_id := restaurant_id,
             go_time := go_time,
             publisher_user_id := orNone (pyLower (pyStrip publisher_user_id)),
             created_at := now }],
           queue := db.queue ++ fresh_rows db.next_queue_id db.next_event_id
             ((db.subs.filter (eligible_subscription
               (pyLower (pyStrip publisher_user_id))
               (orNone (pyStrip (exclude_device_id.getD ""))))).map
               (fun s => s.id)) now,
           next_event_id := db.next_event_id + 1,
           next_queue_id := db.next_queue_id
             + ((db.subs.filter (eligible_subscription
               (pyLower (pyStrip publisher_user_id))
               (orNone (pyStrip (exclude_device_id.getD ""))))).map
               (fun s => s.id)).length },
         { event_id := some db.next_event_id,
           targeted := ((db.subs.filter (eligible_subscription
             (pyLower (pyStrip publisher_user_id))
             (orNone (pyStrip (exclude_device_id.getD ""))))).map
             (fun s => s.id)).length }) := by
  have hsubl : ((db.subs.filter (eligible_subscription
      (pyLower (pyStrip publisher_user_id))
      (orNone (pyStrip (exclude_device_id.getD ""))))).map
      (fun s => s.id)).Sublist (db.subs.map (fun s => s.id)) :=
    List.Sublist.map _ (List.filter_sublist db.subs)
  have hnodup2 : ((db.subs.filter (eligible_subscription
      (pyLower (pyStrip publisher_user_id))
      (orNone (pyStrip (exclude_device_id.getD ""))))).map
      (fun s => s.id)).Nodup := hNodup.sublist hsubl
  have hnew : ∀ q ∈ db.queue, q.event_id = db.next_event_id →
      q.subscription_id ∉ ((db.subs.filter (eligible_subscription
        (pyLower (pyStrip publisher_user_id))
        (orNone (pyStrip (exclude_device_id.getD ""))))).map
        (fun s => s.id)) := by
    intro q hq hev
    exact absurd hev (Nat.ne_of_lt (hFresh q hq))
  unfold create_slot_published_event
  rw [if_neg (by simp)]
  simp only []
  rw [fanout_insert_fresh _ now _ _ _ hnodup2 hnew]

/-- Every targeted id receives a row in `fresh_rows`. -/
theorem fresh_rows_exists (event_id : Nat) (now : Int) (sub_ids : List Nat) :
    ∀ next_id : Nat, ∀ i ∈ sub_ids,
      ∃ q ∈ fresh_rows next_id event_id sub_ids now,
        q.event_id = event_id ∧ q.subscription_id = i := by
  induction sub_ids with
  | nil => intro next_id i hi; simp at hi
  | cons j rest ih =>
    intro next_id i hi
    rcases (List.mem_cons).1 hi with rfl | h
    · exact ⟨_, List.mem_cons_self _ _, rfl, rfl⟩
    · obtain ⟨q, hq, hprop⟩ := ih (next_id + 1) i h
      exact ⟨q, List.mem_cons_of_mem _ hq, hprop⟩

/-! ### C1 -/

/-- C1: with distinct subscription ids and the autoincrement invariant that
no queue row references an event id at or past the counter,
`create_slot_published_event` enqueues exactly one `pending` queue row per
eligible subscription (in order) and its targeted count counts exactly those
newly inserted rows; uniqueness of the (event, subscription) pair is
preserved; and re-running the fan-out insert for the same event and the same
subscription ids leaves the queue unchanged and reports zero newly inserted
rows. -/
theorem C1_fanout_idempotent (db : DB)
    (restaurant_id go_time publisher_user_id : String)
    (exclude_device_id : Option String) (now : Int)
    (hNodup : (db.subs.map Subscription.id).Nodup)
    (hFresh : ∀ q ∈ db.queue, q.event_id < db.next_event_id) :
    ((create_slot_published_event true db restaurant_id go_time
        publisher_user_id exclude_device_id now).1.queue.filter
        (fun q => q.event_id = db.next_event_id)).map
        (fun q => (q.subscription_id, q.status))
      = (db.subs.filter (eligible_subscription
          (pyLower (pyStrip publisher_user_id))
          (orNone (pyStrip (exclude_device_id.getD ""))))).map
          (fun s => (s.id, "pending"))
    ∧ (create_slot_published_event true db restaurant_id go_time
        publisher_user_id exclude_device_id now).2.targeted
      = (db.subs.filter (eligible_subscription
          (pyLower (pyStrip publisher_user_id))
          (orNone (pyStrip (exclude_device_id.getD ""))))).length
    ∧ ((db.queue.map (fun q => (q.event_id, q.subscription_id))).Nodup →
        ((create_slot_published_event true db restaurant_id go_time
          publisher_user_id exclude_device_id now).1.queue.map
          (fun q => (q.event_id, q.subscription_id))).Nodup)
    ∧ ∀ (next_id : Nat) (now2 : Int),
        fanout_insert
          (create_slot_published_event true db restaurant_id go_time
            publisher_user_id exclude_device_id now).1.queue
          next_id db.next_event_id
          ((db.subs.filter (eligible_subscription
            (pyLower (pyStrip publisher_user_id))
            (orNone (pyStrip (exclude_device_id.getD ""))))).map
            (fun s => s.id)) now2
        = ((create_slot_published_event true db restaurant_id go_time
            publisher_user_id exclude_device_id now).1.queue, next_id, 0) := by
  rw [create_event_enabled_eq db restaurant_id go_time publisher_user_id
    exclude_device_id now hNodup hFresh]
  simp only []
  have hfilter_old : db.queue.filter
      (fun q => decide (q.event_id = db.next_event_id)) = [] := by
    rw [List.filter_eq_nil_iff]
    intro q hq
    simp only [decide_eq_true_eq]
    exact Nat.ne_of_lt (hFresh q hq)
  have hfilter_new : ∀ l,
      (fresh_rows db.next_queue_id db.next_event_id l now).filter
        (fun q => decide (q.event_id = db.next_event_id))
      = fresh_rows db.next_queue_id db.next_event_id l now := by
    intro l
    rw [List.filter_eq_self]
    intro q hq
    simp [(fresh_rows_mem db.next_event_id now l _ q hq).1]
  refine ⟨?_, ?_, ?_, ?_⟩
  · rw [List.filter_append, hfilter_old, hfilter_new, List.nil_append,
      fresh_rows_map_sub_status, List.map_map]
    rfl
  · simp [List.length_map]
  · intro hpairs
    rw [List.map_append, fresh_rows_map_pairs]
    rw [List.nodup_append]
    refine ⟨hpairs, ?_, ?_⟩
    · apply List.Nodup.map
      · intro a b hab
        exact congrArg Prod.snd hab
      · exact hNodup.sublist
          (List.Sublist.map _ (List.filter_sublist db.subs))
    · intro p hp hp2
      obtain ⟨q, hq, rfl⟩ := List.mem_map.1 hp
      obtain ⟨i, _, hpair⟩ := List.mem_map.1 hp2
      have : q.event_id = db.next_event_id :=
        congrArg Prod.fst hpair.symm
      exact absurd this (Nat.ne_of_lt (hFresh q hq))
  · intro next_id now2
    apply fanout_insert_idem
    intro i hi
    obtain ⟨q, hq, hprop⟩ :=
      fresh_rows_exists db.next_event_id now _ db.next_queue_id i hi
    exact ⟨q, List.mem_append_right _ hq, hprop⟩

/-- The subscription ids carried by `fresh_rows`, in order. -/
theorem fresh_rows_map_subids (event_id : Nat) (now : Int) (sub_ids : List Nat) :
    ∀ next_id : Nat,
      (fresh_rows next_id event_id sub_ids now).map (fun q => q.subscription_id)
        = sub_ids := by
  induction sub_ids with
  | nil => intro next_id; simp [fresh_rows]
  | cons i rest ih => intro next_id; simp [fresh_rows, ih (next_id + 1)]

/-- The predicate `eligible_subscription`, restated as the spec states it: active,
accepted client mode, not the publisher user id (case-insensitively, when a
publisher id is given), and not the excluded device id (when given). -/
theorem eligible_subscription_iff (pn : String) (en : Option String)
    (s : Subscription) :
    eligible_subscription pn en s = true
      ↔ s.status = "active" ∧ s.client_mode = "standalone"
        ∧ (pn ≠ "" → ∀ u, s.user_id = some u → pyLower u ≠ pn)
        ∧ (∀ d, en = some d → ∀ du, s.device_id = some du → du ≠ d) := by
  unfold eligible_subscription
  cases hu : s.user_id <;> cases hd : s.device_id <;> cases en <;>
    simp [hu, hd] <;> tauto

/-- Witness for C1 at the concrete two-subscription database, publisher
Alice (the fourth conjunct instantiated at counter 5 and time 99). -/
theorem C1_fanout_idempotent_witness :
    ((create_slot_published_event true wDB "r1" "12:00" "Alice" none 5).1.queue.filter
        (fun q => q.event_id = wDB.next_event_id)).map
        (fun q => (q.subscription_id, q.status))
      = (wDB.subs.filter (eligible_subscription
          (pyLower (pyStrip "Alice"))
          (orNone (pyStrip ((none : Option String).getD ""))))).map
          (fun s => (s.id, "pending"))
    ∧ (create_slot_published_event true wDB "r1" "12:00" "Alice" none 5).2.targeted
      = (wDB.subs.filter (eligible_subscription
          (pyLower (pyStrip "Alice"))
          (orNone (pyStrip ((none : Option String).getD ""))))).length
    ∧ ((wDB.queue.map (fun q => (q.event_id, q.subscription_id))).Nodup →
        ((create_slot_published_event true wDB "r1" "12:00" "Alice" none 5).1.queue.map
          (fun q => (q.event_id, q.subscription_id))).Nodup)
    ∧ fanout_insert
        (create_slot_published_event true wDB "r1" "12:00" "Alice" none 5).1.queue
        5 wDB.next_event_id
        ((wDB.subs.filter (eligible_subscription
          (pyLower (pyStrip "Alice"))
          (orNone (pyStrip ((none : Option String).getD ""))))).map
          (fun s => s.id)) 99
      = ((create_slot_published_event true wDB "r1" "12:00" "Alice" none 5).1.queue,
         5, 0) :=
  ⟨(C1_fanout_idempotent wDB "r1" "12:00" "Alice" none 5 (by decide) (by decide)).1,
   (C1_fanout_idempotent wDB "r1" "12:00" "Alice" none 5 (by decide) (by decide)).2.1,
   (C1_fanout_idempotent wDB "r1" "12:00" "Alice" none 5 (by decide) (by decide)).2.2.1,
   (C1_fanout_idempotent wDB "r1" "12:00" "Alice" none 5 (by decide) (by decide)).2.2.2 5 99⟩

/-! ### C5 -/

/-- C5: a queue row of the new event exists for subscription id `i` exactly
when `i` is the id of a stored subscription that is active, has the accepted
client mode, is not owned (case-insensitively) by the publisher user id
when one is given, and is not tied to the excluded device id when one is
given; in particular no excluded subscription ever receives a queue row for
the event. -/
theorem C5_targets_exactly_eligible (db : DB)
    (restaurant_id go_time publisher_user_id : String)
    (exclude_device_id : Option String) (now : Int)
    (hNodup : (db.subs.map Subscription.id).Nodup)
    (hFresh : ∀ q ∈ db.queue, q.event_id < db.next_event_id) :
    ∀ i : Nat,
      (∃ q ∈ (create_slot_published_event true db restaurant_id go_time
          publisher_user_id exclude_device_id now).1.queue,
        q.event_id = db.next_event_id ∧ q.subscription_id = i)
      ↔ ∃ s ∈ db.subs,
          s.id = i ∧ s.status = "active" ∧ s.client_mode = "standalone"
          ∧ (pyLower (pyStrip publisher_user_id) ≠ "" →
              ∀ u, s.user_id = some u →
                pyLower u ≠ pyLower (pyStrip publisher_user_id))
          ∧ (∀ d, orNone (pyStrip (exclude_device_id.getD "")) = some d →
              ∀ du, s.device_id = some du → du ≠ d) := by
  rw [create_event_enabled_eq db restaurant_id go_time publisher_user_id
    exclude_device_id now hNodup hFresh]
  simp only []
  intro i
  constructor
  · rintro ⟨q, hq, hev, hsub⟩
    rcases List.mem_append.1 hq with h | h
    · exact absurd hev (Nat.ne_of_lt (hFresh q h))
    · have hmem : q.subscription_id ∈
          ((db.subs.filter (eligible_subscription
            (pyLower (pyStrip publisher_user_id))
            (orNone (pyStrip (exclude_device_id.getD ""))))).map
            (fun s => s.id)) := by
        rw [← fresh_rows_map_subids db.next_event_id now
          ((db.subs.filter (eligible_subscription
            (pyLower (pyStrip publisher_user_id))
            (orNone (pyStrip (exclude_device_id.getD ""))))).map
            (fun s => s.id)) db.next_queue_id]
        exact List.mem_map_of_mem _ h
      obtain ⟨s, hsmem, hsid⟩ := List.mem_map.1 hmem
      have hfil := List.mem_filter.1 hsmem
      obtain ⟨hst, hcm, huser, hdev⟩ :=
        (eligible_subscription_iff _ _ s).1 hfil.2
      exact ⟨s, hfil.1, by rw [hsid, hsub], hst, hcm, huser, hdev⟩
  · rintro ⟨s, hsmem, hid, hst, hcm, huser, hdev⟩
    have helig : eligible_subscription
        (pyLower (pyStrip publisher_user_id))
        (orNone (pyStrip (exclude_device_id.getD ""))) s = true :=
      (eligible_subscription_iff _ _ s).2 ⟨hst, hcm, huser, hdev⟩
    have hmem : s.id ∈ ((db.subs.filter (eligible_subscription
        (pyLower (pyStrip publisher_user_id))
        (orNone (pyStrip (exclude_device_id.getD ""))))).map
        (fun s => s.id)) :=
      List.mem_map_of_mem _ (List.mem_filter.2 ⟨hsmem, helig⟩)
    obtain ⟨q, hq, hev, hsub⟩ :=
      fresh_rows_exists db.next_event_id now _ db.next_queue_id s.id hmem
    exact ⟨q, List.mem_append_right _ hq, hev, by rw [hsub, hid]⟩

/-- Witness for C5: in the concrete database, subscription 1 (bob) is
targeted and subscription 2 (alice, the publisher) is not. -/
theorem C5_targets_exactly_eligible_witness :
    ((∃ q ∈ (create_slot_published_event true wDB "r1" "12:00" "Alice" none 5).1.queue,
        q.event_id = wDB.next_event_id ∧ q.subscription_id = 1)
      ↔ ∃ s ∈ wDB.subs,
          s.id = 1 ∧ s.status = "active" ∧ s.client_mode = "standalone"
          ∧ (pyLower (pyStrip "Alice") ≠ "" →
              ∀ u, s.user_id = some u → pyLower u ≠ pyLower (pyStrip "Alice"))
          ∧ (∀ d, orNone (pyStrip ((none : Option String).getD "")) = some d →
              ∀ du, s.device_id = some du → du ≠ d)) :=
  C5_targets_exactly_eligible wDB "r1" "12:00" "Alice" none 5
    (by decide) (by decide) 1

/-! ### C8 -/

/-- Each loop iteration of `process_due_deliveries` increments exactly one
of the three summary counters. -/
theorem process_one_stats (sender : Nat → SendOutcome) (now : Int)
    (acc : DB × DeliveryStats × Nat) (row : QueueRow) :
    (process_one sender now acc row).2.1.sent
      + (process_one sender now acc row).2.1.retried
      + (process_one sender now acc row).2.1.failed_permanent
      = acc.2.1.sent + acc.2.1.retried + acc.2.1.failed_permanent + 1 := by
  rcases hsend : sender acc.2.2 with _ | ⟨msg, d⟩ | msg
  · simp only [process_one, hsend]
    omega
  · simp only [process_one, hsend]
    omega
  · by_cases h : RETRY_BACKOFF_SECONDS.length ≤ row.attempt_count <;>
      simp [process_one, hsend, mark_retry, h] <;> omega

/-- The summary counters of the per-row loop total the number of rows
processed. -/
theorem foldl_process_one_total (sender : Nat → SendOutcome) (now : Int)
    (rows : List QueueRow) :
    ∀ acc : DB × DeliveryStats × Nat,
      (rows.foldl (process_one sender now) acc).2.1.sent
        + (rows.foldl (process_one sender now) acc).2.1.retried
        + (rows.foldl (process_one sender now) acc).2.1.failed_permanent
      = acc.2.1.sent + acc.2.1.retried + acc.2.1.failed_permanent
        + rows.length := by
  induction rows with
  | nil => intro acc; simp
  | cons r rest ih =>
    intro acc
    rw [List.foldl_cons, ih (process_one sender now acc r), process_one_stats,
      List.length_cons]
    omega

/-- The `ORDER BY (next_attempt_at, id)` relation is transitive. -/
theorem due_le_trans (a b c : QueueRow) :
    due_le a b = true → due_le b c = true → due_le a c = true := by
  simp only [due_le, Bool.or_eq_true, Bool.and_eq_true, decide_eq_true_eq]
  omega

/-- The `ORDER BY (next_attempt_at, id)` relation is total. -/
theorem due_le_total (a b : QueueRow) :
    due_le a b = true ∨ due_le b a = true := by
  simp only [due_le, Bool.or_eq_true, Bool.and_eq_true, decide_eq_true_eq]
  omega

/-- Counterexample to C8 as stated: with `limit = 0` and one due row,
`process_due_deliveries` still processes one row (the code clamps the batch
size to `max(int(limit), 1)`), so "at most `limit` rows" fails at limit 0. -/
theorem C8_counterexample_limit_zero :
    (process_due_deliveries true ⟨[wSub], [wEvent], [wRow], 2, 2, 2⟩
        (fun _ => SendOutcome.success) 0 100 0).2.1.sent
      + (process_due_deliveries true ⟨[wSub], [wEvent], [wRow], 2, 2, 2⟩
        (fun _ => SendOutcome.success) 0 100 0).2.1.retried
      + (process_due_deliveries true ⟨[wSub], [wEvent], [wRow], 2, 2, 2⟩
        (fun _ => SendOutcome.success) 0 100 0).2.1.failed_permanent = 1 := by
  decide

/-- C8 (amended): each call processes at most `max(limit, 1)` rows; every
selected row is due — status in {pending, retry} (hence not terminal), next
attempt at or before `now`, owning subscription active — rows are taken in
ascending (next-attempt, id) order, the three summary counters total the
number of selected rows, and whenever the due set fits in the clamped limit
the selection is exactly the due rows. -/
theorem C8_due_batch_selection (db : DB) (sender : Nat → SendOutcome)
    (limit now : Int) (calls : Nat) :
    (due_rows db now limit).length ≤ (max limit 1).toNat
    ∧ (∀ q ∈ due_rows db now limit,
        (q.status = "pending" ∨ q.status = "retry")
        ∧ q.next_attempt_at ≤ now
        ∧ (∃ s ∈ db.subs, s.id = q.subscription_id ∧ s.status = "active")
        ∧ q.status ≠ "delivered" ∧ q.status ≠ "failed_permanent")
    ∧ (due_rows db now limit).Pairwise (fun a b => due_le a b = true)
    ∧ ((process_due_deliveries true db sender limit now calls).2.1.sent
        + (process_due_deliveries true db sender limit now calls).2.1.retried
        + (process_due_deliveries true db sender limit now calls).2.1.failed_permanent
        = (due_rows db now limit).length)
    ∧ ((db.queue.filter (is_due db now)).length ≤ (max limit 1).toNat →
        (due_rows db now limit).Perm (db.queue.filter (is_due db now))) := by
  refine ⟨?_, ?_, ?_, ?_, ?_⟩
  · simp only [due_rows, List.length_take]
    omega
  · intro q hq
    have hmem : q ∈ db.queue.filter (is_due db now) :=
      (List.perm_insertionSort _ _).mem_iff.1 (List.mem_of_mem_take hq)
    have hdue := (List.mem_filter.1 hmem).2
    simp only [is_due, Bool.and_eq_true, Bool.or_eq_true, decide_eq_true_eq,
      List.any_eq_true] at hdue
    obtain ⟨⟨⟨hstat, hnext⟩, hsub⟩, hev⟩ := hdue
    refine ⟨hstat, hnext, ?_, ?_, ?_⟩
    · obtain ⟨s, hsm, hp⟩ := hsub
      exact ⟨s, hsm, hp.1, hp.2⟩
    · rcases hstat with h | h <;> simp [h]
    · rcases hstat with h | h <;> simp [h]
  · apply List.Pairwise.sublist (List.take_sublist _ _)
    haveI : IsTotal QueueRow (fun a b => due_le a b = true) := ⟨due_le_total⟩
    haveI : IsTrans QueueRow (fun a b => due_le a b = true) := ⟨due_le_trans⟩
    exact List.sorted_insertionSort _ _
  · rw [process_due_deliveries_enabled, foldl_process_one_total]
    simp
  · intro hlen
    unfold due_rows
    rw [List.take_of_length_le]
    · exact List.perm_insertionSort _ _
    · rw [(List.perm_insertionSort _ _).length_eq]
      exact hlen

/-- Witness for C8 (amended) at the concrete one-row database with limit 0:
the clamped bound holds and the selection is exactly the due set. -/
theorem C8_due_batch_selection_witness :
    (due_rows ⟨[wSub], [wEvent], [wRow], 2, 2, 2⟩ 100 0).length
      ≤ (max (0 : Int) 1).toNat
    ∧ (due_rows ⟨[wSub], [wEvent], [wRow], 2, 2, 2⟩ 100 0).Perm
        ((⟨[wSub], [wEvent], [wRow], 2, 2, 2⟩ : DB).queue.filter
          (is_due ⟨[wSub], [wEvent], [wRow], 2, 2, 2⟩ 100)) :=
  ⟨(C8_due_batch_selection ⟨[wSub], [wEvent], [wRow], 2, 2, 2⟩
      (fun _ => SendOutcome.success) 0 100 0).1,
   (C8_due_batch_selection ⟨[wSub], [wEvent], [wRow], 2, 2, 2⟩
      (fun _ => SendOutcome.success) 0 100 0).2.2.2.2 (by decide)⟩

/-! ### C9 -/

/-- Mapping a function that fixes every element of a list is the identity. -/
theorem list_map_self {α : Type} (l : List α) (f : α → α)
    (h : ∀ x ∈ l, f x = x) : l.map f = l := by
  induction l with
  | nil => rfl
  | cons x xs ih =>
    simp only [List.map_cons, h x (List.mem_cons_self x xs)]
    rw [ih (fun y hy => h y (List.mem_cons_of_mem _ hy))]

/-- Calling `register_subscription` on a valid payload whose endpoint is not stored
yet: the insert arm of the upsert appends a fresh active row and returns the
fresh autoincrement id. -/
theorem register_subscription_insert (db : DB) (p : SubscriptionPayload)
    (dev : String) (u : Option String) (mode : String) (now : Int)
    (ep dh au : String)
    (hex : extract_subscription_parts p = .ok (ep, dh, au))
    (hdev : pyStrip dev ≠ "")
    (hmode : pyLower (pyStrip mode) = "standalone")
    (hnew : ∀ s ∈ db.subs, s.endpoint ≠ ep) :
    register_subscription db p dev u mode now
      = .ok ({ db with
          subs := db.subs ++ [{
            id := db.next_sub_id,
            endpoint := ep,
            p256dh := dh,
            auth := au,
            device_id := some (pyStrip dev),
            user_id := orNone (pyLower (pyStrip (u.getD ""))),
            client_mode := pyLower (pyStrip mode),
            status := "active",
            last_seen_at := now,
            created_at := now,
            updated_at := now }],
          next_sub_id := db.next_sub_id + 1 },
         db.next_sub_id) := by
  have hany : (db.subs.any fun s => s.endpoint = ep) = false := by
    rw [List.any_eq_false]
    intro s hs
    simp [hnew s hs]
  have hfind : db.subs.find? (fun s => s.endpoint = ep) = none := by
    rw [List.find?_eq_none]
    intro s hs
    simp [hnew s hs]
  simp only [register_subscription, hex]
  rw [if_neg hdev, if_neg (by simp [hmode])]
  simp only [hmode, hany, Bool.false_eq_true, if_false, List.find?_append,
    hfind, Option.none_or]
  simp [List.find?]

/-- Calling `register_subscription` on a valid payload whose endpoint is stored in
the last row: the update arm of the upsert rewrites that row in place with
the new keys, device, user and mode, resets it to active, refreshes its
last-seen/updated timestamps, and returns the id of the stored row. -/
theorem register_subscription_update (D : DB) (p : SubscriptionPayload)
    (dev : String) (u : Option String) (mode : String) (now : Int)
    (ep dh au : String) (t : Subscription) (pre : List Subscription)
    (hex : extract_subscription_parts p = .ok (ep, dh, au))
    (hdev : pyStrip dev ≠ "")
    (hmode : pyLower (pyStrip mode) = "standalone")
    (hD : D.subs = pre ++ [t])
    (hfresh : ∀ s ∈ pre, s.endpoint ≠ ep)
    (ht : t.endpoint = ep) :
    register_subscription D p dev u mode now
      = .ok ({ D with
          subs := pre ++ [{ t with
            p256dh := dh,
            auth := au,
            device_id := some (pyStrip dev),
            user_id := orNone (pyLower (pyStrip (u.getD ""))),
            client_mode := pyLower (pyStrip mode),
            status := "active",
            last_seen_at := now,
            updated_at := now }] },
         t.id) := by
  have hany : (D.subs.any fun s => s.endpoint = ep) = true := by
    rw [hD, List.any_eq_true]
    exact ⟨t, List.mem_append_right _ (List.mem_singleton_self t),
      by simp [ht]⟩
  have hmap : pre.map (upsert_row ep dh au (pyStrip dev)
      (orNone (pyLower (pyStrip (u.getD "")))) (pyLower (pyStrip mode)) now)
      = pre := by
    apply list_map_self
    intro s hs
    simp [upsert_row, hfresh s hs]
  have hfind : pre.find? (fun s => s.endpoint = ep) = none := by
    rw [List.find?_eq_none]
    intro s hs
    simp [hfresh s hs]
  simp only [register_subscription, hex]
  rw [if_neg hdev, if_neg (by simp [hmode]), if_pos hany, hD,
    List.map_append, hmap]
  simp only [List.map_cons, List.map_nil]
  rw [show upsert_row ep dh au (pyStrip dev)
      (orNone (pyLower (pyStrip (u.getD "")))) (pyLower (pyStrip mode)) now t
      = { t with
          p256dh := dh,
          auth := au,
          device_id := some (pyStrip dev),
          user_id := orNone (pyLower (pyStrip (u.getD ""))),
          client_mode := pyLower (pyStrip mode),
          status := "active",
          last_seen_at := now,
          updated_at := now } from by simp [upsert_row, ht]]
  rw [List.find?_append, hfind, Option.none_or]
  simp [List.find?, ht]

/-- C9: registering the same endpoint twice (with possibly different keys,
device, user, mode and times) against a store not yet holding that endpoint
yields exactly one subscription row for the endpoint; that row carries the
values of the second registration with status reset to `active`, refreshed
last-seen/updated timestamps, the `created_at` of the first registration,
and both calls return the same durable identifier. -/
theorem C9_upsert_same_endpoint (db : DB) (p1 p2 : SubscriptionPayload)
    (dev1 dev2 : String) (u1 u2 : Option String) (mode1 mode2 : String)
    (now1 now2 : Int) (ep d1 a1 d2 a2 : String)
    (h1 : extract_subscription_parts p1 = .ok (ep, d1, a1))
    (h2 : extract_subscription_parts p2 = .ok (ep, d2, a2))
    (hdev1 : pyStrip dev1 ≠ "") (hdev2 : pyStrip dev2 ≠ "")
    (hmode1 : pyLower (pyStrip mode1) = "standalone")
    (hmode2 : pyLower (pyStrip mode2) = "standalone")
    (hfresh : ∀ s ∈ db.subs, s.endpoint ≠ ep) :
    ∃ row : Subscription,
      row.id = db.next_sub_id ∧ row.endpoint = ep
      ∧ row.p256dh = d2 ∧ row.auth = a2
      ∧ row.device_id = some (pyStrip dev2)
      ∧ row.user_id = orNone (pyLower (pyStrip (u2.getD "")))
      ∧ row.client_mode = pyLower (pyStrip mode2)
      ∧ row.status = "active"
      ∧ row.last_seen_at = now2 ∧ row.created_at = now1
      ∧ row.updated_at = now2
      ∧ ∃ db1 db2 : DB,
          register_subscription db p1 dev1 u1 mode1 now1
            = .ok (db1, db.next_sub_id)
          ∧ register_subscription db1 p2 dev2 u2 mode2 now2
            = .ok (db2, db.next_sub_id)
          ∧ db2.subs.filter (fun s => s.endpoint = ep) = [row] := by
  refine ⟨{
    id := db.next_sub_id,
    endpoint := ep,
    p256dh := d2,
    auth := a2,
    device_id := some (pyStrip dev2),
    user_id := orNone (pyLower (pyStrip (u2.getD ""))),
    client_mode := pyLower (pyStrip mode2),
    status := "active",
    last_seen_at := now2,
    created_at := now1,
    updated_at := now2 },
    rfl, rfl, rfl, rfl, rfl, rfl, rfl, rfl, rfl, rfl, rfl,
    { db with
      subs := db.subs ++ [{
        id := db.next_sub_id,
        endpoint := ep,
        p256dh := d1,
        auth := a1,
        device_id := some (pyStrip dev1),
        user_id := orNone (pyLower (pyStrip (u1.getD ""))),
        client_mode := pyLower (pyStrip mode1),
        status := "active",
        last_seen_at := now1,
        created_at := now1,
        updated_at := now1 }],
      next_sub_id := db.next_sub_id + 1 },
    { db with
      subs := db.subs ++ [{
        id := db.next_sub_id,
        endpoint := ep,
        p256dh := d2,
        auth := a2,
        device_id := some (pyStrip dev2),
        user_id := orNone (pyLower (pyStrip (u2.getD ""))),
        client_mode := pyLower (pyStrip mode2),
        status := "active",
        last_seen_at := now2,
        created_at := now1,
        updated_at := now2 }],
      next_sub_id := db.next_sub_id + 1 },
    register_subscription_insert db p1 dev1 u1 mode1 now1 ep d1 a1
      h1 hdev1 hmode1 hfresh,
    ?_, ?_⟩
  · exact register_subscription_update
      { db with
        subs := db.subs ++ [{
          id := db.next_sub_id,
          endpoint := ep,
          p256dh := d1,
          auth := a1,
          device_id := some (pyStrip dev1),
          user_id := orNone (pyLower (pyStrip (u1.getD ""))),
          client_mode := pyLower (pyStrip mode1),
          status := "active",
          last_seen_at := now1,
          created_at := now1,
          updated_at := now1 }],
        next_sub_id := db.next_sub_id + 1 }
      p2 dev2 u2 mode2 now2 ep d2 a2
      {
        id := db.next_sub_id,
        endpoint := ep,
        p256dh := d1,
        auth := a1,
        device_id := some (pyStrip dev1),
        user_id := orNone (pyLower (pyStrip (u1.getD ""))),
        client_mode := pyLower (pyStrip mode1),
        status := "active",
        last_seen_at := now1,
        created_at := now1,
        updated_at := now1 }
      db.subs h2 hdev2 hmode2 rfl hfresh rfl
  · rw [List.filter_append]
    have hnil : db.subs.filter (fun s => decide (s.endpoint = ep)) = [] := by
      rw [List.filter_eq_nil_iff]
      intro s hs
      simp [hfresh s hs]
    rw [hnil, List.nil_append]
    simp [List.filter]

/-- Witness for C9: registering endpoint `https://push.example/new` twice
with different keys, devices, users and times against the concrete store. -/
theorem C9_upsert_same_endpoint_witness :
    ∃ row : Subscription,
      row.id = wDB.next_sub_id ∧ row.endpoint = "https://push.example/new"
      ∧ row.p256dh = "k2" ∧ row.auth = "a2"
      ∧ row.device_id = some (pyStrip "device-b")
      ∧ row.user_id = orNone (pyLower (pyStrip ((some "Carol").getD "")))
      ∧ row.client_mode = pyLower (pyStrip " Standalone ")
      ∧ row.status = "active"
      ∧ row.last_seen_at = 10 ∧ row.created_at = 3
      ∧ row.updated_at = 10
      ∧ ∃ db1 db2 : DB,
          register_subscription wDB
              { endpoint := some "https://push.example/new",
                keys := some { p256dh := some "k1", auth := some "a1" } }
              "device-a" (some "Bob") "standalone" 3
            = .ok (db1, wDB.next_sub_id)
          ∧ register_subscription db1
              { endpoint := some "https://push.example/new",
                keys := some { p256dh := some "k2", auth := some "a2" } }
              "device-b" (some "Carol") " Standalone " 10
            = .ok (db2, wDB.next_sub_id)
          ∧ db2.subs.filter (fun s => s.endpoint = "https://push.example/new")
            = [row] :=
  C9_upsert_same_endpoint wDB
    { endpoint := some "https://push.example/new",
      keys := some { p256dh := some "k1", auth := some "a1" } }
    { endpoint := some "https://push.example/new",
      keys := some { p256dh := some "k2", auth := some "a2" } }
    "device-a" "device-b" (some "Bob") (some "Carol")
    "standalone" " Standalone " 3 10
    "https://push.example/new" "k1" "a1" "k2" "a2"
    rfl rfl (by decide) (by decide) (by decide) (by decide) (by decide)

/-! ### C10 -/

/-- What a successful `_extract_subscription_parts` run returns: the stripped
endpoint and key values, all non-empty. -/
theorem extract_ok_parts (p : SubscriptionPayload) (ep dh au : String)
    (h : extract_subscription_parts p = .ok (ep, dh, au)) :
    ep = pyStrip (p.endpoint.getD "")
    ∧ (∃ k, p.keys = some k
        ∧ dh = pyStrip (k.p256dh.getD "") ∧ au = pyStrip (k.auth.getD ""))
    ∧ ep ≠ "" ∧ dh ≠ "" ∧ au ≠ "" := by
  rcases hk : p.keys with _ | k
  · simp [extract_subscription_parts, hk] at h
  · simp only [extract_subscription_parts, hk] at h
    split at h
    · cases h
    · rename_i hcond
      simp only [Except.ok.injEq, Prod.mk.injEq] at h
      obtain ⟨rfl, rfl, rfl⟩ := h
      simp only [Bool.or_eq_true, decide_eq_true_eq, not_or] at hcond
      exact ⟨rfl, ⟨k, rfl, rfl, rfl⟩, hcond.1.1, hcond.1.2, hcond.2⟩

/-- A valid registration always succeeds, returning the identifier of an
active stored row carrying the registered endpoint. -/
theorem register_subscription_ok_of_valid (db : DB) (p : SubscriptionPayload)
    (dev : String) (u : Option String) (mode : String) (now : Int)
    (ep dh au : String)
    (hex : extract_subscription_parts p = .ok (ep, dh, au))
    (hdev : pyStrip dev ≠ "")
    (hmode : pyLower (pyStrip mode) = "standalone") :
    ∃ (db1 : DB) (i : Nat),
      register_subscription db p dev u mode now = .ok (db1, i)
      ∧ ∃ s ∈ db1.subs, s.id = i ∧ s.status = "active" ∧ s.endpoint = ep := by
  by_cases hany : (db.subs.any fun s => s.endpoint = ep) = true
  · simp only [register_subscription, hex]
    rw [if_neg hdev, if_neg (by simp [hmode]), if_pos hany]
    have hsome : ((db.subs.map (upsert_row ep dh au (pyStrip dev)
        (orNone (pyLower (pyStrip (u.getD "")))) (pyLower (pyStrip mode))
        now)).find? (fun s => s.endpoint = ep)).isSome = true := by
      rw [List.find?_isSome]
      rw [List.any_eq_true] at hany
      obtain ⟨s, hs, hps⟩ := hany
      simp only [decide_eq_true_eq] at hps
      exact ⟨upsert_row ep dh au (pyStrip dev)
          (orNone (pyLower (pyStrip (u.getD "")))) (pyLower (pyStrip mode))
          now s,
        List.mem_map_of_mem _ hs, by simp [upsert_row, hps]⟩
    obtain ⟨row, hrow⟩ := Option.isSome_iff_exists.1 hsome
    rw [hrow]
    have hpe : row.endpoint = ep := by
      have := List.find?_some hrow
      simpa using this
    refine ⟨_, _, rfl, row, List.mem_of_find?_eq_some hrow, rfl, ?_, hpe⟩
    obtain ⟨s, hs, hfs⟩ := List.mem_map.1 (List.mem_of_find?_eq_some hrow)
    by_cases hse : s.endpoint = ep
    · rw [← hfs]
      simp [upsert_row, hse]
    · exfalso
      apply hse
      rw [← hpe, ← hfs]
      simp [upsert_row, hse]
  · have hf : (db.subs.any fun s => s.endpoint = ep) = false := by
      revert hany
      cases db.subs.any fun s => s.endpoint = ep <;> simp
    have hnew : ∀ s ∈ db.subs, s.endpoint ≠ ep := by
      rw [List.any_eq_false] at hf
      intro s hs
      have := hf s hs
      simpa using this
    rw [register_subscription_insert db p dev u mode now ep dh au hex hdev
      hmode hnew]
    exact ⟨_, _, rfl, _,
      List.mem_append_right _ (List.mem_singleton_self _), rfl, rfl, rfl⟩

/-- Counterexample to C10 as stated: the client mode "Standalone" does not
equal the accepted value "standalone", yet registration succeeds, because the
code lowercases (and trims) the mode before comparing. -/
theorem C10_counterexample_client_mode :
    ("Standalone" ≠ "standalone")
    ∧ (register_subscription wDB
        { endpoint := some "https://push.example/new",
          keys := some { p256dh := some "k", auth := some "a" } }
        "device-nine" none "Standalone" 7).isOk = true := by
  decide

/-- C10 (amended): `register_subscription` fails with a validation error —
writing nothing, as the error is raised before any store access — exactly
when the stripped endpoint is empty, the keys object is missing, either
stripped key is empty, the stripped device id is empty, or the client mode,
stripped and lowercased, differs from "standalone"; on any valid input it
succeeds and returns the identifier of an active stored row carrying the
registered endpoint. -/
theorem C10_validation_characterization (db : DB) (p : SubscriptionPayload)
    (dev : String) (u : Option String) (mode : String) (now : Int) :
    ((register_subscription db p dev u mode now).isOk = false
      ↔ (pyStrip (p.endpoint.getD "") = ""
        ∨ p.keys = none
        ∨ (∃ k, p.keys = some k
            ∧ (pyStrip (k.p256dh.getD "") = ""
               ∨ pyStrip (k.auth.getD "") = ""))
        ∨ pyStrip dev = ""
        ∨ pyLower (pyStrip mode) ≠ "standalone"))
    ∧ ∀ (db1 : DB) (i : Nat),
        register_subscription db p dev u mode now = .ok (db1, i) →
        ∃ s ∈ db1.subs, s.id = i ∧ s.status = "active"
          ∧ s.endpoint = pyStrip (p.endpoint.getD "") := by
  constructor
  · rcases hk : p.keys with _ | k
    · simp [register_subscription, extract_subscription_parts, hk,
        Except.isOk, Except.toBool]
    · by_cases he : pyStrip (p.endpoint.getD "") = ""
      · simp [register_subscription, extract_subscription_parts, hk, he,
          Except.isOk, Except.toBool]
      · by_cases hp : pyStrip (k.p256dh.getD "") = ""
        · simp [register_subscription, extract_subscription_parts, hk, he,
            hp, Except.isOk, Except.toBool]
        · by_cases ha : pyStrip (k.auth.getD "") = ""
          · simp [register_subscription, extract_subscription_parts, hk,
              he, hp, ha, Except.isOk, Except.toBool]
          · have hex : extract_subscription_parts p
                = .ok (pyStrip (p.endpoint.getD ""),
                    pyStrip (k.p256dh.getD ""), pyStrip (k.auth.getD "")) := by
              simp [extract_subscription_parts, hk, he, hp, ha]
            by_cases hdev : pyStrip dev = ""
            · simp [register_subscription, hex, hdev, Except.isOk, Except.toBool, hk, he,
                hp, ha]
            · by_cases hmode : pyLower (pyStrip mode) = "standalone"
              · obtain ⟨db1, i, hok, -⟩ :=
                  register_subscription_ok_of_valid db p dev u mode now
                    _ _ _ hex hdev hmode
                simp [hok, Except.isOk, Except.toBool, hk, he, hp, ha, hdev, hmode]
              · simp [register_subscription, hex, hdev, hmode, Except.isOk,
                  Except.toBool, hk, he, hp, ha]
  · intro db1 i hok
    rcases hex : extract_subscription_parts p with e | ⟨ep, dh, au⟩
    · simp only [register_subscription, hex] at hok
      exact Except.noConfusion hok
    · by_cases hdev : pyStrip dev = ""
      · simp only [register_subscription, hex] at hok
        rw [if_pos hdev] at hok
        exact Except.noConfusion hok
      · by_cases hmode : pyLower (pyStrip mode) = "standalone"
        · obtain ⟨db1x, ix, hokx, s, hsmem, hsid, hsst, hsep⟩ :=
            register_subscription_ok_of_valid db p dev u mode now ep dh au
              hex hdev hmode
          rw [hok] at hokx
          simp only [Except.ok.injEq, Prod.mk.injEq] at hokx
          obtain ⟨h1, h2⟩ := hokx
          subst h1
          subst h2
          exact ⟨s, hsmem, hsid, hsst,
            hsep.trans (extract_ok_parts p ep dh au hex).1⟩
        · simp only [register_subscription, hex] at hok
          rw [if_neg hdev, if_pos hmode] at hok
          exact Except.noConfusion hok

/-- Witness for C10 (amended): the empty-key payload is rejected (the iff at
a concrete invalid input) and the valid payload yields an active stored row
with the returned id. -/
theorem C10_validation_characterization_witness :
    ((register_subscription wDB wPayloadBad "dev" none "standalone" 5).isOk
        = false
      ↔ (pyStrip (wPayloadBad.endpoint.getD "") = ""
        ∨ wPayloadBad.keys = none
        ∨ (∃ k, wPayloadBad.keys = some k
            ∧ (pyStrip (k.p256dh.getD "") = ""
               ∨ pyStrip (k.auth.getD "") = ""))
        ∨ pyStrip "dev" = ""
        ∨ pyLower (pyStrip "standalone") ≠ "standalone"))
    ∧ ∃ s ∈ wDBAfter.subs, s.id = 3 ∧ s.status = "active"
        ∧ s.endpoint = pyStrip (wPayloadGood.endpoint.getD "") :=
  ⟨(C10_validation_characterization wDB wPayloadBad "dev" none "standalone"
      5).1,
   (C10_validation_characterization wDB wPayloadGood "deva" none "standalone"
      5).2 wDBAfter 3 rfl⟩
